import Mathlib

/-!
Shallow embedding of the Relay API client (TypeScript) transport core:
error taxonomy and classification (src/client/errors.ts, src/client/http-client.ts),
query-string serialization (src/utils/query-params.ts), and the top-level
client construction (RelayClient).

JavaScript values are embedded as follows: optional / possibly-undefined
fields become Option; JS string truthiness (empty string is falsy) is made
explicit; the thrown value reaching HTTPClient.handleError is abstracted by
whether it is an instance of RelayError, whether it is a TypeError, and its
message string; JSON bodies are an inductive JValue with integer numerics.
-/

namespace Relay

/-- Details mapping (the Record of string to arbitrary data carried on errors),
abstracted as an association list of rendered key and value strings. -/
abbrev Details := List (String × String)

/-- JS string truthiness on an optional string: undefined and the empty string
are falsy. Models the fallback chains written with the JS or-operator. -/
def truthyStr (o : Option String) : Option String :=
  match o with
  | some s => if s = "" then none else some s
  | none => none

/-- The fields of the parsed response body that createErrorFromResponse reads
(data.message, data.error, data.code, data.details, data.retry_after); a body
that is not an object, or lacks a field, has none there. -/
structure ResponseData where
  message : Option String
  error : Option String
  code : Option String
  details : Option Details
  retry_after : Option Nat
deriving DecidableEq, Repr

/-- The parsed body of an empty or unparseable response: the empty object. -/
def emptyData : ResponseData :=
  { message := none, error := none, code := none, details := none, retry_after := none }

/-- The message computed by createErrorFromResponse:
data.message or-else data.error or-else the fixed fallback string. -/
def jsMessage (message err : Option String) : String :=
  match truthyStr message with
  | some m => m
  | none =>
    match truthyStr err with
    | some e => e
    | none => "An error occurred"

/-- A RelayError instance: the base error class of the taxonomy. The name field
is the runtime class name (the discriminator set by each subclass constructor);
retryAfter is the extra field of RateLimitError, none on every other kind. -/
structure RelayError where
  name : String
  message : String
  status : Option Nat
  code : Option String
  details : Option Details
  retryAfter : Option Nat
deriving DecidableEq, Repr

/-- The base RelayError constructor: new RelayError(message, status, code, details). -/
def RelayError.base (message : String) (status : Option Nat) (code : Option String)
    (details : Option Details) : RelayError :=
  { name := "RelayError", message := message, status := status, code := code,
    details := details, retryAfter := none }

/-- new AuthenticationError(message?, details?): default message is used when the
message argument is absent (undefined); status 401, code AUTHENTICATION_ERROR. -/
def AuthenticationError (message : Option String) (details : Option Details) : RelayError :=
  { name := "AuthenticationError", message := message.getD "Authentication failed",
    status := some 401, code := some "AUTHENTICATION_ERROR", details := details,
    retryAfter := none }

/-- new AuthorizationError(message?, details?): status 403, code AUTHORIZATION_ERROR. -/
def AuthorizationError (message : Option String) (details : Option Details) : RelayError :=
  { name := "AuthorizationError", message := message.getD "Insufficient permissions",
    status := some 403, code := some "AUTHORIZATION_ERROR", details := details,
    retryAfter := none }

/-- new NotFoundError(message?, details?): status 404, code NOT_FOUND. -/
def NotFoundError (message : Option String) (details : Option Details) : RelayError :=
  { name := "NotFoundError", message := message.getD "Resource not found",
    status := some 404, code := some "NOT_FOUND", details := details,
    retryAfter := none }

/-- new ValidationError(message?, details?): the constructor hardcodes status 400
(also when classification reaches it from a 422 response), code VALIDATION_ERROR. -/
def ValidationError (message : Option String) (details : Option Details) : RelayError :=
  { name := "ValidationError", message := message.getD "Validation failed",
    status := some 400, code := some "VALIDATION_ERROR", details := details,
    retryAfter := none }

/-- new RateLimitError(message?, retryAfter?, details?): status 429,
code RATE_LIMIT_ERROR, carrying the retry-after value. -/
def RateLimitError (message : Option String) (retryAfter : Option Nat)
    (details : Option Details) : RelayError :=
  { name := "RateLimitError", message := message.getD "Rate limit exceeded",
    status := some 429, code := some "RATE_LIMIT_ERROR", details := details,
    retryAfter := retryAfter }

/-- new NetworkError(message?, details?): no status, code NETWORK_ERROR. -/
def NetworkError (message : Option String) (details : Option Details) : RelayError :=
  { name := "NetworkError", message := message.getD "Network request failed",
    status := none, code := some "NETWORK_ERROR", details := details,
    retryAfter := none }

/-- new ServerError(message?, status?, details?): the status defaults to 500 and
otherwise carries the originating status code; code SERVER_ERROR. -/
def ServerError (message : Option String) (status : Option Nat)
    (details : Option Details) : RelayError :=
  { name := "ServerError", message := message.getD "Internal server error",
    status := some (status.getD 500), code := some "SERVER_ERROR", details := details,
    retryAfter := none }

/-- new TimeoutError(message?, details?): status 408, code TIMEOUT_ERROR. -/
def TimeoutError (message : Option String) (details : Option Details) : RelayError :=
  { name := "TimeoutError", message := message.getD "Request timeout",
    status := some 408, code := some "TIMEOUT_ERROR", details := details,
    retryAfter := none }

/-- HTTPClient.createErrorFromResponse(status, data): the switch on the status
code, with the 400/422 and 500/502/503/504 fallthrough groups written as
disjunctions. The message is data.message or data.error or the fixed fallback,
computed once before the switch. -/
def createErrorFromResponse (status : Nat) (data : ResponseData) : RelayError :=
  let message := jsMessage data.message data.error
  let code := data.code
  let details := data.details
  if status = 401 then AuthenticationError (some message) details
  else if status = 403 then AuthorizationError (some message) details
  else if status = 404 then NotFoundError (some message) details
  else if status = 400 ∨ status = 422 then ValidationError (some message) details
  else if status = 429 then RateLimitError (some message) data.retry_after details
  else if status = 500 ∨ status = 502 ∨ status = 503 ∨ status = 504 then
    ServerError (some message) (some status) details
  else RelayError.base message (some status) code details

/-- The body of an HTTP response as handleResponse consumes it: a JSON
content-type whose parse succeeded (some data) or threw (none), or a non-JSON
content-type whose text read succeeded (some text) or threw (none). -/
inductive ResponseBody where
  | json (d : Option ResponseData)
  | text (t : Option String)
deriving DecidableEq, Repr

/-- An HTTP response: its status code and its body. -/
structure Response where
  status : Nat
  body : ResponseBody
deriving DecidableEq, Repr

/-- The data value handleResponse builds from the body: parsed JSON, or
non-empty text wrapped as an object with a message field, or the empty object
(also on any parse failure, which is swallowed). -/
def parseResponseBody (b : ResponseBody) : ResponseData :=
  match b with
  | .json (some d) => d
  | .json none => emptyData
  | .text (some t) => if t = "" then emptyData else { emptyData with message := some t }
  | .text none => emptyData

/-- HTTPClient.handleResponse: parse the body; on an ok (2xx) status return the
data, otherwise throw the classified error built from status and data. -/
def handleResponse (r : Response) : Except RelayError ResponseData :=
  let data := parseResponseBody r.body
  if 200 ≤ r.status ∧ r.status ≤ 299 then Except.ok data
  else Except.error (createErrorFromResponse r.status data)

/-- The value caught by the catch block around the exchange: either a RelayError
instance (a classified error, including the classified response error and the
TimeoutError), or some other JS error abstracted by whether it is a TypeError
and by its message string. -/
inductive Thrown where
  | relayErr (e : RelayError)
  | jsError (isTypeError : Bool) (message : String)
deriving DecidableEq, Repr

/-- HTTPClient.handleError: a RelayError passes through unchanged; a TypeError
or an error whose message is the fetch failure string becomes a NetworkError;
anything else becomes a base RelayError with code UNKNOWN_ERROR (its message
falling back when falsy). The originalError detail is abstracted by the
thrown message. -/
def handleError (e : Thrown) : RelayError :=
  match e with
  | .relayErr err => err
  | .jsError isTypeError msg =>
    if isTypeError = true ∨ msg = "Failed to fetch" then
      NetworkError (some "Network request failed. Please check your connection.")
        (some [("originalError", msg)])
    else
      RelayError.base (if msg = "" then "An unknown error occurred" else msg)
        none (some "UNKNOWN_ERROR") (some [("originalError", msg)])

/-! Query-string serialization (src/utils/query-params.ts), including the
URLSearchParams application/x-www-form-urlencoded serializer it relies on. -/

/-- The characters URLSearchParams leaves unencoded: ASCII alphanumerics
and asterisk, hyphen, period, underscore. -/
def isUnreservedChar (c : Char) : Bool :=
  c.isAlphanum || c = '*' || c = '-' || c = '.' || c = '_'

/-- The UTF-8 bytes of a code point. -/
def utf8Bytes (n : Nat) : List Nat :=
  if n < 128 then [n]
  else if n < 2048 then [192 + n / 64, 128 + n % 64]
  else if n < 65536 then [224 + n / 4096, 128 + n / 64 % 64, 128 + n % 64]
  else [240 + n / 262144, 128 + n / 4096 % 64, 128 + n / 64 % 64, 128 + n % 64]

/-- Uppercase hexadecimal digit character for a value below 16. -/
def hexDigit (n : Nat) : Char :=
  if n < 10 then Char.ofNat (48 + n) else Char.ofNat (55 + n)

/-- Percent-encoding of one byte. -/
def percentByte (b : Nat) : List Char :=
  ['%', hexDigit (b / 16), hexDigit (b % 16)]

/-- URLSearchParams encoding of one character: unreserved characters pass
through, a space becomes a plus, everything else is percent-encoded per
UTF-8 byte. -/
def encodeChar (c : Char) : List Char :=
  if isUnreservedChar c then [c]
  else if c = ' ' then ['+']
  else ((utf8Bytes c.toNat).map percentByte).flatten

/-- URLSearchParams encoding of a string. -/
def formUrlEncode (s : String) : String :=
  String.mk (s.data.map encodeChar).flatten

/-- One serialized key-value pair of a query string. -/
def renderPair (p : String × String) : String :=
  formUrlEncode p.1 ++ "=" ++ formUrlEncode p.2

/-- Joining serialized pairs with ampersands, as URLSearchParams toString does. -/
def ampJoin (l : List String) : String :=
  match l with
  | [] => ""
  | [x] => x
  | x :: y :: xs => x ++ "&" ++ ampJoin (y :: xs)

/-- A scalar query value, stringified by the JS String() conversion. -/
inductive QScalar where
  | str (s : String)
  | num (n : Int)
  | bool (b : Bool)
deriving DecidableEq, Repr

/-- String(value) for a scalar query value. -/
def QScalar.toJSString (v : QScalar) : String :=
  match v with
  | .str s => s
  | .num n => toString n
  | .bool b => if b then "true" else "false"

/-- A value of the query mapping handed to buildQueryString: undefined, null,
a scalar, or an array of scalars. -/
inductive QueryValue where
  | undef
  | null
  | scalar (v : QScalar)
  | arr (xs : List QScalar)
deriving DecidableEq, Repr

/-- The appends one entry of the mapping performs on the URLSearchParams
accumulator: nothing for undefined or null, the key once per element for an
array, the key once for a scalar. -/
def entryAppend (acc : List (String × String)) (kv : String × QueryValue) :
    List (String × String) :=
  match kv.2 with
  | .undef => acc
  | .null => acc
  | .arr xs => xs.foldl (fun a item => a ++ [(kv.1, item.toJSString)]) acc
  | .scalar v => acc ++ [(kv.1, v.toJSString)]

/-- buildQueryString(params): fold the entries of the mapping over an empty
URLSearchParams, appending as the source does, then serialize. -/
def buildQueryString (params : List (String × QueryValue)) : String :=
  let searchParams := params.foldl entryAppend []
  ampJoin (searchParams.map renderPair)

/-- appendQueryParams(url, params): append the serialized query string, with an
ampersand when the url already holds a question mark, else a question mark;
an empty query string leaves the url unchanged. -/
def appendQueryParams (url : String) (params : List (String × QueryValue)) : String :=
  let queryString := buildQueryString params
  if queryString = "" then url
  else url ++ (if url.contains '?' then "&" else "?") ++ queryString

/-! The JSON value model for request bodies and the body serialization of
HTTPClient.request. -/

/-- A JSON-like JS value for request bodies, with integer numerics. -/
inductive JValue where
  | null
  | bool (b : Bool)
  | num (n : Int)
  | str (s : String)
  | arr (xs : List JValue)
  | obj (fields : List (String × JValue))
deriving Repr

/-- JSON string escaping for JSON.stringify: quote, backslash and control
characters are escaped, everything else passes through. -/
def escapeJSONChar (c : Char) : List Char :=
  if c = '"' then ['\\', '"']
  else if c = '\\' then ['\\', '\\']
  else if c = '\n' then ['\\', 'n']
  else if c = '\r' then ['\\', 'r']
  else if c = '\t' then ['\\', 't']
  else if c.toNat < 32 then
    ['\\', 'u', '0', '0', hexDigit (c.toNat / 16), hexDigit (c.toNat % 16)]
  else [c]

/-- JSON string literal for a string value. -/
def escapeJSONString (s : String) : String :=
  String.mk ('"' :: (s.data.map escapeJSONChar).flatten ++ ['"'])

mutual

/-- JSON.stringify on the JValue model. -/
def JValue.stringify (v : JValue) : String :=
  match v with
  | .null => "null"
  | .bool b => if b then "true" else "false"
  | .num n => toString n
  | .str s => escapeJSONString s
  | .arr xs => "[" ++ JValue.stringifyList xs ++ "]"
  | .obj fs => "\x7b" ++ JValue.stringifyFields fs ++ "\x7d"

/-- Comma-separated stringification of array elements. -/
def JValue.stringifyList (l : List JValue) : String :=
  match l with
  | [] => ""
  | [x] => x.stringify
  | x :: y :: xs => x.stringify ++ "," ++ JValue.stringifyList (y :: xs)

/-- Comma-separated stringification of object fields. -/
def JValue.stringifyFields (l : List (String × JValue)) : String :=
  match l with
  | [] => ""
  | [(k, v)] => escapeJSONString k ++ ":" ++ v.stringify
  | (k, v) :: y :: xs =>
    escapeJSONString k ++ ":" ++ v.stringify ++ "," ++ JValue.stringifyFields (y :: xs)

end

/-- JS truthiness of a JValue: null, false, zero and the empty string are
falsy; arrays and objects are always truthy. -/
def JValue.truthy (v : JValue) : Bool :=
  match v with
  | .null => false
  | .bool b => b
  | .num n => n ≠ 0
  | .str s => s ≠ ""
  | .arr _ => true
  | .obj _ => true

/-- The body serializer of request(): a string body passes through unchanged,
any other body is JSON-stringified. -/
def serializeBody (v : JValue) : String :=
  match v with
  | .str s => s
  | v => v.stringify

/-- The body attached to the outgoing request: present exactly when a body was
given, is truthy, and the method is not GET. -/
def resolvedBody (method : String) (body : Option JValue) : Option String :=
  match body with
  | some b => if b.truthy ∧ method ≠ "GET" then some (serializeBody b) else none
  | none => none

/-! JS plain objects used as header records: insertion-ordered association
lists with the object-spread update semantics (an existing key is overwritten
in place, a new key is appended). -/

/-- A JS string-to-string record (header mapping). -/
abbrev Obj := List (String × String)

/-- Setting one key of a record: overwrite in place when present, else append. -/
def objSet (m : Obj) (k v : String) : Obj :=
  if m.any (fun kv => kv.1 = k) then
    m.map (fun kv => if kv.1 = k then (k, v) else kv)
  else m ++ [(k, v)]

/-- The object spread of m2 over m1: each binding of m2 updates the record. -/
def objMerge (m1 m2 : Obj) : Obj :=
  m2.foldl (fun acc kv => objSet acc kv.1 kv.2) m1

/-- Reading one key of a record. -/
def objGet (m : Obj) (k : String) : Option String :=
  (m.find? (fun kv => kv.1 = k)).map (fun kv => kv.2)

/-! The HTTPClient (src/client/http-client.ts). Lifecycle hooks are
side-effecting observers whose return value the code ignores; they are
embedded as presence flags together with an event trace recording each
invocation and its argument in order. -/

/-- HTTPClientConfig: baseURL, apiKey, optional timeout and default headers,
and the three optional hooks (by presence). -/
structure HTTPClientConfig where
  baseURL : String
  apiKey : String
  timeout : Option Nat
  headers : Option Obj
  onRequestSet : Bool
  onResponseSet : Bool
  onErrorSet : Bool
deriving DecidableEq, Repr

/-- The state an HTTPClient instance holds after construction. -/
structure HTTPClient where
  baseURL : String
  apiKey : String
  timeout : Nat
  defaultHeaders : Obj
  onRequestSet : Bool
  onResponseSet : Bool
  onErrorSet : Bool
deriving DecidableEq, Repr

/-- Removing one trailing slash, as the constructor's replace with the
slash-at-end pattern does. -/
def stripTrailingSlash (s : String) : String :=
  if s.endsWith "/" then s.dropRight 1 else s

/-- The fixed header record every client starts from. -/
def baseDefaultHeaders : Obj :=
  [("Content-Type", "application/json"),
   ("User-Agent", "relay-api-client-typescript/1.0.0")]

/-- The HTTPClient constructor: strip the trailing slash off the base URL,
default the timeout to 30000, spread the configured headers over the fixed
defaults, store the hooks. -/
def HTTPClient.create (config : HTTPClientConfig) : HTTPClient :=
  { baseURL := stripTrailingSlash config.baseURL
    apiKey := config.apiKey
    timeout := config.timeout.getD 30000
    defaultHeaders := objMerge baseDefaultHeaders (config.headers.getD [])
    onRequestSet := config.onRequestSet
    onResponseSet := config.onResponseSet
    onErrorSet := config.onErrorSet }

/-- RequestOptions: every field optional, defaulted inside request(). -/
structure RequestOptions where
  method : Option String
  headers : Option Obj
  body : Option JValue
  query : Option (List (String × QueryValue))
  timeout : Option Nat
  credentials : Option String

/-- The RequestInit-level data request() assembles before issuing the call. -/
structure ResolvedRequest where
  url : String
  method : String
  headers : Obj
  body : Option String
  credentials : String
  timeoutMs : Nat
deriving DecidableEq, Repr

/-- The resolution phase of request(): default the method to GET, build the
url from base URL, path and query, spread per-call headers over the default
headers and then set Authorization to the bearer token, attach the body for
truthy non-GET bodies, resolve timeout and credentials. -/
def HTTPClient.resolveRequest (c : HTTPClient) (path : String)
    (opts : RequestOptions) : ResolvedRequest :=
  let method := opts.method.getD "GET"
  let callHeaders := opts.headers.getD []
  let url0 := c.baseURL ++ path
  let url := match opts.query with
    | some q => appendQueryParams url0 q
    | none => url0
  { url := url
    method := method
    headers := objSet (objMerge c.defaultHeaders callHeaders)
      "Authorization" ("Bearer " ++ c.apiKey)
    body := resolvedBody method opts.body
    credentials := opts.credentials.getD "same-origin"
    timeoutMs := opts.timeout.getD c.timeout }

/-- The outcome of the race between fetch and the timeout timer: an HTTP
response of any status, or a thrown value (a fetch rejection, or the
TimeoutError the timer throws). -/
inductive FetchOutcome where
  | response (r : Response)
  | thrown (t : Thrown)
deriving DecidableEq, Repr

/-- One observable hook invocation. -/
inductive Event where
  | requestHook (url : String)
  | responseHook (r : Response)
  | errorHook (e : RelayError)
deriving DecidableEq, Repr

/-- Whether an event is an error-hook invocation. -/
def Event.isErrorHook (ev : Event) : Bool :=
  match ev with
  | .errorHook _ => true
  | _ => false

/-- One run of HTTPClient.request for a given exchange outcome: the ordered
trace of hook invocations and the result handed to the caller. A response
goes through the response hook and handleResponse; a failing status throws the
classified error inside the try block, so the catch block receives a
RelayError and handleError returns it unchanged; a thrown outcome goes through
handleError directly. In every failing path the error hook, when configured,
is invoked with the classified error before it propagates. -/
def HTTPClient.requestRun (c : HTTPClient) (path : String) (opts : RequestOptions)
    (outcome : FetchOutcome) : List Event × Except RelayError ResponseData :=
  let req := c.resolveRequest path opts
  let pre := if c.onRequestSet then [Event.requestHook req.url] else []
  match outcome with
  | .response r =>
    let mid := if c.onResponseSet then [Event.responseHook r] else []
    match handleResponse r with
    | .ok data => (pre ++ mid, Except.ok data)
    | .error e =>
      let relayError := handleError (.relayErr e)
      let post := if c.onErrorSet then [Event.errorHook relayError] else []
      (pre ++ mid ++ post, Except.error relayError)
  | .thrown t =>
    let relayError := handleError t
    let post := if c.onErrorSet then [Event.errorHook relayError] else []
    (pre ++ post, Except.error relayError)

/-! The top-level RelayClient (its constructor validates the configuration
before creating the HTTP client). -/

/-- RelayClientConfig: apiKey and tenantId required strings, the rest optional
and passed through to the HTTP client. -/
structure RelayClientConfig where
  apiKey : String
  tenantId : String
  baseURL : Option String
  timeout : Option Nat
  headers : Option Obj
  onRequestSet : Bool
  onResponseSet : Bool
  onErrorSet : Bool
deriving DecidableEq, Repr

/-- The state a RelayClient instance holds: the tenant id and the HTTP client
(the network capability the services share). -/
structure RelayClient where
  tenantId : String
  httpClient : HTTPClient
deriving DecidableEq, Repr

/-- The RelayClient constructor: an empty (falsy) apiKey or tenantId throws
synchronously with the respective message, before any HTTPClient is created;
otherwise the HTTPClient is built with the base URL defaulted to the fixed
production URL and the remaining fields passed through. -/
def RelayClient.create (config : RelayClientConfig) : Except String RelayClient :=
  if config.apiKey = "" then Except.error "API key is required"
  else if config.tenantId = "" then Except.error "Tenant ID is required"
  else Except.ok
    { tenantId := config.tenantId
      httpClient := HTTPClient.create
        { baseURL := config.baseURL.getD "https://api.relay.com"
          apiKey := config.apiKey
          timeout := config.timeout
          headers := config.headers
          onRequestSet := config.onRequestSet
          onResponseSet := config.onResponseSet
          onErrorSet := config.onErrorSet } }

/-! Lemmas about the JS record operations. -/

theorem find?_objMap_set (m : Obj) (k v : String)
    (h : m.any (fun kv => kv.1 = k) = true) :
    (m.map (fun kv => if kv.1 = k then (k, v) else kv)).find? (fun kv => kv.1 = k)
      = some (k, v) := by
  induction m with
  | nil => simp at h
  | cons a t ih =>
    by_cases ha : a.1 = k
    · simp [ha]
    · simp only [List.any_cons, Bool.or_eq_true, decide_eq_true_eq] at h
      rcases h with h | h
      · exact absurd h ha
      · simpa [ha] using ih h

theorem find?_objMap_ne (m : Obj) (k v k' : String) (h : k' ≠ k) :
    (m.map (fun kv => if kv.1 = k then (k, v) else kv)).find? (fun kv => kv.1 = k')
      = m.find? (fun kv => kv.1 = k') := by
  induction m with
  | nil => rfl
  | cons a t ih =>
    rw [List.map_cons]
    by_cases ha : a.1 = k
    · rw [if_pos ha]
      rw [List.find?_cons_of_neg _ (by
        simp only [decide_eq_true_eq]
        exact fun hh => h hh.symm)]
      rw [List.find?_cons_of_neg _ (by
        simp only [decide_eq_true_eq]
        exact fun hh => h (ha ▸ hh).symm)]
      exact ih
    · rw [if_neg ha]
      by_cases ha' : a.1 = k'
      · rw [List.find?_cons_of_pos _ (by simp [ha']),
          List.find?_cons_of_pos _ (by simp [ha'])]
      · rw [List.find?_cons_of_neg _ (by simp [ha']),
          List.find?_cons_of_neg _ (by simp [ha'])]
        exact ih

theorem find?_none_of_no_key (m : Obj) (k : String)
    (h : m.any (fun kv => kv.1 = k) = false) :
    m.find? (fun kv => kv.1 = k) = none := by
  rw [List.find?_eq_none]
  intro kv hm hk
  rw [Bool.eq_false_iff] at h
  exact h (List.any_eq_true.mpr ⟨kv, hm, hk⟩)

theorem objGet_objSet_same (m : Obj) (k v : String) :
    objGet (objSet m k v) k = some v := by
  unfold objGet objSet
  by_cases h : m.any (fun kv => kv.1 = k) = true
  · simp only [h, if_true, find?_objMap_set m k v h, Option.map_some']
  · rw [Bool.not_eq_true] at h
    simp only [h, Bool.false_eq_true, if_false, List.find?_append,
      find?_none_of_no_key m k h, Option.none_or]
    rw [List.find?_cons_of_pos _ (by simp)]
    rfl

theorem objGet_objSet_ne (m : Obj) (k v k' : String) (h : k' ≠ k) :
    objGet (objSet m k v) k' = objGet m k' := by
  unfold objGet objSet
  by_cases hm : m.any (fun kv => kv.1 = k) = true
  · simp only [hm, if_true, find?_objMap_ne m k v k' h]
  · rw [Bool.not_eq_true] at hm
    simp only [hm, Bool.false_eq_true, if_false, List.find?_append]
    rw [List.find?_cons_of_neg _ (by
      simp only [decide_eq_true_eq]
      exact fun hh => h hh.symm)]
    rw [List.find?_nil, Option.or_none]

theorem objGet_none_of_not_key (m : Obj) (k : String)
    (h : k ∉ m.map Prod.fst) : objGet m k = none := by
  unfold objGet
  rw [List.find?_eq_none.mpr]
  · rfl
  · intro kv hm hk
    exact h (List.mem_map.mpr ⟨kv, hm, by simpa using hk⟩)

theorem objGet_objMerge (m1 m2 : Obj) (k : String)
    (h : (m2.map Prod.fst).Nodup) :
    objGet (objMerge m1 m2) k
      = ((objGet m2 k).orElse fun _ => objGet m1 k) := by
  induction m2 generalizing m1 with
  | nil => simp [objMerge, objGet, Option.orElse]
  | cons a t ih =>
    simp only [List.map_cons, List.nodup_cons] at h
    have hmerge : objMerge m1 (a :: t) = objMerge (objSet m1 a.1 a.2) t := rfl
    rw [hmerge, ih _ h.2]
    by_cases hk : k = a.1
    · have ht : objGet t k = none := by
        rw [hk]
        exact objGet_none_of_not_key t a.1 h.1
      have hhead : objGet (a :: t) k = some a.2 := by
        unfold objGet
        rw [List.find?_cons_of_pos _ (by simp [hk])]
        rfl
      rw [ht, hhead, hk, objGet_objSet_same]
      simp [Option.orElse]
    · have hhead : objGet (a :: t) k = objGet t k := by
        unfold objGet
        rw [List.find?_cons_of_neg _ (by
          simp only [decide_eq_true_eq]
          exact fun hh => hk hh.symm)]
      rw [hhead, objGet_objSet_ne m1 a.1 a.2 k hk]

/-- Claim C6: the effective header mapping of every request is the spread of
the per-call headers over the client's default headers, per-call headers
winning on key collision, and the Authorization header with the bearer token
is set last, so no configured or per-call header can override it. -/
theorem resolveRequest_headers (c : HTTPClient) (path : String)
    (opts : RequestOptions) :
    objGet (HTTPClient.resolveRequest c path opts).headers "Authorization"
      = some ("Bearer " ++ c.apiKey)
    ∧ (∀ k, k ≠ "Authorization" → ((opts.headers.getD []).map Prod.fst).Nodup →
        objGet (HTTPClient.resolveRequest c path opts).headers k
          = ((objGet (opts.headers.getD []) k).orElse fun _ =>
              objGet c.defaultHeaders k)) := by
  constructor
  · exact objGet_objSet_same _ _ _
  · intro k hk hnd
    have h1 : objGet (HTTPClient.resolveRequest c path opts).headers k
        = objGet (objMerge c.defaultHeaders (opts.headers.getD [])) k :=
      objGet_objSet_ne _ _ _ _ hk
    rw [h1, objGet_objMerge _ _ _ hnd]

/-- A sample client whose configured headers try to set Authorization. -/
def headerCaseClient : HTTPClient :=
  HTTPClient.create
    { baseURL := "https://api.relay.com/", apiKey := "k1"
      timeout := none
      headers := some [("Authorization", "evil"), ("X-A", "conf")]
      onRequestSet := false, onResponseSet := false, onErrorSet := false }

/-- Sample per-call options colliding with a configured header and trying to
override Authorization. -/
def headerCaseOpts : RequestOptions :=
  { method := none
    headers := some [("X-A", "call"), ("Authorization", "evil2")]
    body := none, query := none, timeout := none, credentials := none }

/-- Witness for C6: on the sample client and options, the bearer token wins the
Authorization key and the per-call value wins the colliding key. -/
theorem resolveRequest_headers_witness :
    objGet (HTTPClient.resolveRequest headerCaseClient "/w" headerCaseOpts).headers
      "Authorization" = some "Bearer k1"
    ∧ objGet (HTTPClient.resolveRequest headerCaseClient "/w" headerCaseOpts).headers
      "X-A" = some "call" := by
  constructor
  · exact (resolveRequest_headers headerCaseClient "/w" headerCaseOpts).1
  · rw [(resolveRequest_headers headerCaseClient "/w" headerCaseOpts).2 "X-A"
      (by decide) (by decide)]
    decide

/-! Error classification facts. -/

/-- The statuses the classification switch lists explicitly. -/
def listedStatuses : List Nat := [401, 403, 404, 400, 422, 429, 500, 502, 503, 504]

theorem message_createErrorFromResponse (s : Nat) (d : ResponseData) :
    (createErrorFromResponse s d).message = jsMessage d.message d.error := by
  unfold createErrorFromResponse
  split_ifs <;>
    simp [AuthenticationError, AuthorizationError, NotFoundError, ValidationError,
      RateLimitError, ServerError, RelayError.base]

theorem jsMessage_none (m e : Option String) (hm : truthyStr m = none)
    (he : truthyStr e = none) : jsMessage m e = "An error occurred" := by
  unfold jsMessage
  rw [hm, he]

theorem jsMessage_some (m e : Option String) (x : String)
    (hm : truthyStr m = some x) : jsMessage m e = x := by
  unfold jsMessage
  rw [hm]

/-- Claim C10: a 422 response classifies to the VALIDATION kind whose status
field is hardcoded to 400, so the classified errors produced for a 400 and a
422 response are equal in every field. -/
theorem validation_status_400 (d : ResponseData) :
    createErrorFromResponse 422 d = createErrorFromResponse 400 d
    ∧ (createErrorFromResponse 422 d).status = some 400
    ∧ (createErrorFromResponse 422 d).name = "ValidationError" := by
  refine ⟨?_, ?_, ?_⟩ <;> simp [createErrorFromResponse, ValidationError]

/-- Counterexample to claim C2: a 401 response whose body supplies no message
and no error field classifies with the uniform fallback message, not with the
fixed default "Authentication failed" the table lists for the kind. -/
theorem default_message_counterexample :
    (createErrorFromResponse 401 emptyData).message = "An error occurred"
    ∧ ¬ (createErrorFromResponse 401 emptyData).message = "Authentication failed" := by
  decide

/-- Claim C2 (amended): for every listed status, when the parsed body supplies
no truthy message and no truthy error field, the classified error's message is
the uniform fallback, the same string for every kind; when the body supplies a
truthy message, that message is used. The kind-specific table defaults are
constructor defaults that classification never exercises, since the switch
always passes the already-computed message. -/
theorem fallback_message_uniform (s : Nat) (d : ResponseData)
    (_hs : s ∈ listedStatuses) :
    (truthyStr d.message = none → truthyStr d.error = none →
      (createErrorFromResponse s d).message = "An error occurred")
    ∧ (∀ m, truthyStr d.message = some m →
        (createErrorFromResponse s d).message = m) := by
  constructor
  · intro hm he
    rw [message_createErrorFromResponse, jsMessage_none d.message d.error hm he]
  · intro m hm
    rw [message_createErrorFromResponse, jsMessage_some d.message d.error m hm]

/-- Witness for C2 (amended): a 429 response with an empty body gets the
uniform fallback message; a 401 response with a body message gets that message. -/
theorem fallback_message_uniform_witness :
    (createErrorFromResponse 429 emptyData).message = "An error occurred"
    ∧ (createErrorFromResponse 401
        { message := some "nope", error := none, code := none, details := none,
          retry_after := none }).message = "nope" := by
  constructor
  · exact (fallback_message_uniform 429 emptyData (by decide)).1 (by decide) (by decide)
  · exact (fallback_message_uniform 401
      { message := some "nope", error := none, code := none, details := none,
        retry_after := none } (by decide)).2 "nope" (by decide)

/-- Counterexample to claim C3: a failure that is not already classified, but
is neither a TypeError nor carries the fetch failure message, is not
classified as the NETWORK kind; it becomes the base kind with code
UNKNOWN_ERROR. -/
theorem handleError_unknown_counterexample :
    (handleError (Thrown.jsError false "boom")).name = "RelayError"
    ∧ (handleError (Thrown.jsError false "boom")).code = some "UNKNOWN_ERROR"
    ∧ ¬ (handleError (Thrown.jsError false "boom")).name = "NetworkError"
    ∧ ¬ (handleError (Thrown.jsError false "boom")).message
        = "Network request failed. Please check your connection." := by
  decide

/-- Claim C3 (amended): already-classified errors propagate through
handleError unchanged; a TypeError, or a failure whose message is the fetch
failure string, is classified as the NETWORK kind with the fixed message;
every other non-classified failure becomes the base kind with code
UNKNOWN_ERROR carrying the failure's own message (with a fallback when the
message is empty). -/
theorem handleError_classification :
    (∀ e, handleError (.relayErr e) = e)
    ∧ (∀ msg, handleError (.jsError true msg)
        = NetworkError (some "Network request failed. Please check your connection.")
            (some [("originalError", msg)]))
    ∧ (∀ b, handleError (.jsError b "Failed to fetch")
        = NetworkError (some "Network request failed. Please check your connection.")
            (some [("originalError", "Failed to fetch")]))
    ∧ (∀ msg, msg ≠ "Failed to fetch" → msg ≠ "" →
        handleError (.jsError false msg)
          = RelayError.base msg none (some "UNKNOWN_ERROR")
              (some [("originalError", msg)]))
    ∧ handleError (.jsError false "")
        = RelayError.base "An unknown error occurred" none (some "UNKNOWN_ERROR")
            (some [("originalError", "")]) := by
  refine ⟨fun e => rfl, fun msg => by simp [handleError], fun b => ?_, ?_, by decide⟩
  · cases b <;> simp [handleError]
  · intro msg h1 h2
    simp [handleError, h1, h2]

/-- Witness for C3 (amended): a plain failure with a distinct message becomes
the UNKNOWN base kind; a TypeError becomes the NETWORK kind. -/
theorem handleError_classification_witness :
    handleError (Thrown.jsError false "socket hang up")
      = RelayError.base "socket hang up" none (some "UNKNOWN_ERROR")
          (some [("originalError", "socket hang up")])
    ∧ handleError (Thrown.jsError true "connect ECONNREFUSED")
      = NetworkError (some "Network request failed. Please check your connection.")
          (some [("originalError", "connect ECONNREFUSED")]) := by
  constructor
  · exact handleError_classification.2.2.2.1 "socket hang up" (by decide) (by decide)
  · exact handleError_classification.2.1 "connect ECONNREFUSED"

/-- Claim C5: every 2xx response returns the parsed body unchanged as the
result with no classification; a malformed JSON body, an unreadable body, or
empty text parses to the empty object instead of propagating a parse error. -/
theorem handleResponse_success :
    (∀ r : Response, 200 ≤ r.status → r.status ≤ 299 →
      handleResponse r = Except.ok (parseResponseBody r.body))
    ∧ parseResponseBody (.json none) = emptyData
    ∧ parseResponseBody (.text none) = emptyData
    ∧ parseResponseBody (.text (some "")) = emptyData := by
  refine ⟨?_, rfl, rfl, by simp [parseResponseBody]⟩
  intro r h1 h2
  unfold handleResponse
  rw [if_pos ⟨h1, h2⟩]

/-- Witness for C5: a 200 response with a malformed JSON body yields the empty
object as result. -/
theorem handleResponse_success_witness :
    handleResponse { status := 200, body := ResponseBody.json none }
      = Except.ok emptyData := by
  exact handleResponse_success.1 { status := 200, body := ResponseBody.json none }
    (by decide) (by decide)

/-- Counterexample to claim C8: a present string body that is empty (falsy) is
not attached at all on a POST, instead of being passed through unchanged. -/
theorem resolvedBody_falsy_counterexample :
    resolvedBody "POST" (some (JValue.str "")) = none
    ∧ ¬ resolvedBody "POST" (some (JValue.str "")) = some "" := by
  decide

/-- Claim C8 (amended): a present truthy body on a non-GET method is
transmitted as itself when it is a string and as its JSON encoding otherwise;
a present falsy body (the empty string, or a JSON null, false or zero) is
treated as absent; a GET request never attaches a body; and the request
resolution uses exactly this rule. -/
theorem resolvedBody_serialization :
    (∀ method b, JValue.truthy b = true → method ≠ "GET" →
      resolvedBody method (some b) = some (serializeBody b))
    ∧ (∀ s, serializeBody (JValue.str s) = s)
    ∧ (∀ b, (∀ s, b ≠ JValue.str s) → serializeBody b = JValue.stringify b)
    ∧ (∀ method b, JValue.truthy b = false → resolvedBody method (some b) = none)
    ∧ (∀ b, resolvedBody "GET" b = none)
    ∧ (∀ method, resolvedBody method none = none)
    ∧ (∀ c path opts, (HTTPClient.resolveRequest c path opts).body
        = resolvedBody (HTTPClient.resolveRequest c path opts).method opts.body) := by
  refine ⟨?_, fun s => rfl, ?_, ?_, ?_, fun method => rfl, fun c path opts => rfl⟩
  · intro method b h1 h2
    simp only [resolvedBody]
    rw [if_pos ⟨h1, h2⟩]
  · intro b h
    cases b with
    | str s => exact absurd rfl (h s)
    | null => rfl
    | bool x => rfl
    | num n => rfl
    | arr xs => rfl
    | obj fs => rfl
  · intro method b h
    simp [resolvedBody, h]
  · intro b
    cases b with
    | none => rfl
    | some v => simp [resolvedBody]

/-- Witness for C8 (amended): a POST body that is a JSON object is transmitted
as its JSON encoding. -/
theorem resolvedBody_serialization_witness :
    resolvedBody "POST" (some (JValue.obj [("a", JValue.num 1)]))
      = some "\x7b\"a\":1\x7d" := by
  rw [resolvedBody_serialization.1 "POST" (JValue.obj [("a", JValue.num 1)])
    rfl (by decide)]
  rfl

/-- Claim C9: constructing the top-level client with an empty API key or empty
tenant id fails synchronously with the respective message and produces no
client instance, hence no network capability and no hook invocation. -/
theorem relayClient_create_validation (config : RelayClientConfig) :
    (config.apiKey = "" →
      RelayClient.create config = Except.error "API key is required")
    ∧ (config.apiKey ≠ "" → config.tenantId = "" →
        RelayClient.create config = Except.error "Tenant ID is required")
    ∧ ((config.apiKey = "" ∨ config.tenantId = "") →
        ∀ cl, ¬ RelayClient.create config = Except.ok cl) := by
  refine ⟨?_, ?_, ?_⟩
  · intro h
    unfold RelayClient.create
    rw [if_pos h]
  · intro h1 h2
    unfold RelayClient.create
    rw [if_neg h1, if_pos h2]
  · intro h cl hok
    unfold RelayClient.create at hok
    rcases h with h | h
    · rw [if_pos h] at hok
      exact Except.noConfusion hok
    · by_cases ha : config.apiKey = ""
      · rw [if_pos ha] at hok
        exact Except.noConfusion hok
      · rw [if_neg ha, if_pos h] at hok
        exact Except.noConfusion hok

/-- Witness for C9: an empty API key fails construction with the fixed message. -/
theorem relayClient_create_validation_witness :
    RelayClient.create
      { apiKey := "", tenantId := "t", baseURL := none, timeout := none,
        headers := none, onRequestSet := false, onResponseSet := false,
        onErrorSet := false } = Except.error "API key is required" := by
  exact (relayClient_create_validation _).1 rfl

/-- Claim C1: classification of a non-2xx status follows the fixed table:
401 AUTHENTICATION, 403 AUTHORIZATION, 404 NOT_FOUND, 400 and 422 VALIDATION,
429 RATE_LIMIT carrying the body's retry_after value, 500/502/503/504 SERVER
carrying the originating status code, and every other non-2xx status the
GENERIC base kind preserving the body's message, code and details; and
handleResponse classifies every non-ok response exactly this way. -/
theorem createErrorFromResponse_classification (d : ResponseData) (s : Nat) :
    (createErrorFromResponse 401 d).name = "AuthenticationError"
    ∧ (createErrorFromResponse 403 d).name = "AuthorizationError"
    ∧ (createErrorFromResponse 404 d).name = "NotFoundError"
    ∧ (createErrorFromResponse 400 d).name = "ValidationError"
    ∧ (createErrorFromResponse 422 d).name = "ValidationError"
    ∧ (createErrorFromResponse 429 d).name = "RateLimitError"
    ∧ (createErrorFromResponse 429 d).retryAfter = d.retry_after
    ∧ (s = 500 ∨ s = 502 ∨ s = 503 ∨ s = 504 →
        (createErrorFromResponse s d).name = "ServerError"
        ∧ (createErrorFromResponse s d).status = some s)
    ∧ (¬ (200 ≤ s ∧ s ≤ 299) → s ∉ listedStatuses →
        createErrorFromResponse s d
          = RelayError.base (jsMessage d.message d.error) (some s) d.code d.details)
    ∧ (∀ r : Response, ¬ (200 ≤ r.status ∧ r.status ≤ 299) →
        handleResponse r
          = Except.error (createErrorFromResponse r.status (parseResponseBody r.body))) := by
  refine ⟨by simp [createErrorFromResponse, AuthenticationError],
    by simp [createErrorFromResponse, AuthorizationError],
    by simp [createErrorFromResponse, NotFoundError],
    by simp [createErrorFromResponse, ValidationError],
    by simp [createErrorFromResponse, ValidationError],
    by simp [createErrorFromResponse, RateLimitError],
    by simp [createErrorFromResponse, RateLimitError],
    ?_, ?_, ?_⟩
  · intro h
    rcases h with rfl | rfl | rfl | rfl <;>
      exact ⟨by simp [createErrorFromResponse, ServerError],
        by simp [createErrorFromResponse, ServerError]⟩
  · intro hs2 hmem
    simp only [listedStatuses, List.mem_cons, List.not_mem_nil, or_false, not_or] at hmem
    obtain ⟨h401, h403, h404, h400, h422, h429, h500, h502, h503, h504⟩ := hmem
    simp [createErrorFromResponse, h401, h403, h404, h400, h422, h429,
      h500, h502, h503, h504]
  · intro r hr
    unfold handleResponse
    rw [if_neg hr]

/-- A sample error body for an unlisted status. -/
def teapotData : ResponseData :=
  { message := some "I am a teapot", error := none, code := some "TEAPOT",
    details := some [("k", "v")], retry_after := none }

/-- Witness for C1: an unlisted 418 status yields the base kind preserving the
body's message, code and details; a 503 carries its own status; a failing 404
response is classified by handleResponse. -/
theorem createErrorFromResponse_classification_witness :
    createErrorFromResponse 418 teapotData
      = RelayError.base "I am a teapot" (some 418) (some "TEAPOT") (some [("k", "v")])
    ∧ (createErrorFromResponse 503 emptyData).status = some 503
    ∧ handleResponse { status := 404, body := ResponseBody.json none }
      = Except.error (createErrorFromResponse 404 emptyData) := by
  refine ⟨?_, ?_, ?_⟩
  · exact (createErrorFromResponse_classification teapotData 418).2.2.2.2.2.2.2.2.1
      (by decide) (by decide)
  · exact ((createErrorFromResponse_classification emptyData 503).2.2.2.2.2.2.2.1
      (by decide)).2
  · exact (createErrorFromResponse_classification emptyData 404).2.2.2.2.2.2.2.2.2
      { status := 404, body := ResponseBody.json none } (by decide)

/-- Claim C4: for every run of request() that fails, when the error hook is
configured the trace contains exactly one error-hook invocation, as the last
event, receiving exactly the classified error the caller gets (the hook's
return value is ignored, so it can neither suppress nor transform the error);
without the hook no error-hook event occurs; a successful run never invokes
the error hook. -/
theorem requestRun_error_hook (c : HTTPClient) (path : String)
    (opts : RequestOptions) (outcome : FetchOutcome) :
    (∀ e, (HTTPClient.requestRun c path opts outcome).2 = Except.error e →
      ((HTTPClient.requestRun c path opts outcome).1.filter Event.isErrorHook
          = if c.onErrorSet then [Event.errorHook e] else [])
      ∧ (c.onErrorSet = true →
          (HTTPClient.requestRun c path opts outcome).1.getLast?
            = some (Event.errorHook e)))
    ∧ (∀ dat, (HTTPClient.requestRun c path opts outcome).2 = Except.ok dat →
        (HTTPClient.requestRun c path opts outcome).1.filter Event.isErrorHook
          = []) := by
  cases outcome with
  | response r =>
    cases hhr : handleResponse r with
    | ok dat' =>
      constructor
      · intro e he
        simp [HTTPClient.requestRun, hhr] at he
      · intro dat hd
        cases hR : c.onRequestSet <;> cases hS : c.onResponseSet <;>
          simp [HTTPClient.requestRun, hhr, hR, hS, Event.isErrorHook]
    | error e' =>
      constructor
      · intro e he
        have he2 : handleError (.relayErr e') = e := by
          simpa [HTTPClient.requestRun, hhr] using he
        subst he2
        cases hE : c.onErrorSet <;> cases hR : c.onRequestSet <;>
          cases hS : c.onResponseSet <;>
          simp [HTTPClient.requestRun, hhr, hE, hR, hS, Event.isErrorHook]
      · intro dat hd
        simp [HTTPClient.requestRun, hhr] at hd
  | thrown t =>
    constructor
    · intro e he
      have he2 : handleError t = e := by
        simpa [HTTPClient.requestRun] using he
      subst he2
      cases hE : c.onErrorSet <;> cases hR : c.onRequestSet <;>
        simp [HTTPClient.requestRun, hE, hR, Event.isErrorHook]
    · intro dat hd
      simp [HTTPClient.requestRun] at hd

/-- A sample client with all three hooks configured. -/
def hookClient : HTTPClient :=
  HTTPClient.create
    { baseURL := "https://b", apiKey := "k", timeout := none, headers := none,
      onRequestSet := true, onResponseSet := true, onErrorSet := true }

/-- Sample per-call options leaving every field defaulted. -/
def plainOpts : RequestOptions :=
  { method := none, headers := none, body := none, query := none,
    timeout := none, credentials := none }

/-- Witness for C4: on a run failing with a thrown TimeoutError, the error
hook fires last with exactly that error. -/
theorem requestRun_error_hook_witness :
    (HTTPClient.requestRun hookClient "/p" plainOpts
        (FetchOutcome.thrown (Thrown.relayErr (TimeoutError none none)))).1.getLast?
      = some (Event.errorHook (TimeoutError none none)) := by
  exact ((requestRun_error_hook hookClient "/p" plainOpts
    (FetchOutcome.thrown (Thrown.relayErr (TimeoutError none none)))).1
      (TimeoutError none none) rfl).2 rfl

/-! Query-string serialization facts (claim C7). -/

/-- Spec-side characterization of one entry's contribution to the query
string, following the spec's words: a null or undefined value contributes
nothing, an array contributes the key once per element with the element
stringified, a scalar contributes the key once. Compared below with the
source-side fold buildQueryString performs. -/
def specEntryPairs (kv : String × QueryValue) : List (String × String) :=
  match kv.2 with
  | .undef => []
  | .null => []
  | .scalar v => [(kv.1, v.toJSString)]
  | .arr xs => xs.map (fun x => (kv.1, x.toJSString))

theorem foldl_array_append (k : String) (xs : List QScalar)
    (acc : List (String × String)) :
    xs.foldl (fun a item => a ++ [(k, item.toJSString)]) acc
      = acc ++ xs.map (fun x => (k, x.toJSString)) := by
  induction xs generalizing acc with
  | nil => simp
  | cons x t ih => simp [ih]

theorem entryAppend_eq (acc : List (String × String)) (kv : String × QueryValue) :
    entryAppend acc kv = acc ++ specEntryPairs kv := by
  obtain ⟨k, v⟩ := kv
  cases v with
  | undef => simp [entryAppend, specEntryPairs]
  | null => simp [entryAppend, specEntryPairs]
  | scalar v => simp [entryAppend, specEntryPairs]
  | arr xs => simp [entryAppend, specEntryPairs, foldl_array_append]

theorem foldl_entryAppend (params : List (String × QueryValue))
    (acc : List (String × String)) :
    params.foldl entryAppend acc = acc ++ (params.map specEntryPairs).flatten := by
  induction params generalizing acc with
  | nil => simp
  | cons kv t ih => simp [entryAppend_eq, ih]

theorem buildQueryString_eq (params : List (String × QueryValue)) :
    buildQueryString params
      = ampJoin (((params.map specEntryPairs).flatten).map renderPair) := by
  simp [buildQueryString, foldl_entryAppend]

/-! No question mark ever occurs in a serialized query string. -/

theorem char_toNat_lt (c : Char) : c.toNat < 1114112 := by
  have h : c.val.toNat < 55296 ∨ (57343 < c.val.toNat ∧ c.val.toNat < 1114112) :=
    c.valid
  rcases h with h | h
  · exact Nat.lt_trans h (by decide)
  · exact h.2

theorem utf8Bytes_lt (n : Nat) (hn : n < 1114112) :
    ∀ b ∈ utf8Bytes n, b < 256 := by
  intro b hb
  unfold utf8Bytes at hb
  split_ifs at hb with h1 h2 h3 <;> simp only [List.mem_cons, List.not_mem_nil,
    or_false] at hb
  · omega
  · rcases hb with rfl | rfl <;> omega
  · rcases hb with rfl | rfl | rfl <;> omega
  · rcases hb with rfl | rfl | rfl | rfl <;> omega

theorem hexDigit_ne_qmark (n : Nat) (h : n < 16) : hexDigit n ≠ '?' := by
  interval_cases n <;> decide

theorem qmark_not_mem_percentByte (b : Nat) (hb : b < 256) :
    '?' ∉ percentByte b := by
  intro hmem
  simp only [percentByte, List.mem_cons, List.not_mem_nil, or_false] at hmem
  rcases hmem with h | h | h
  · exact absurd h (by decide)
  · exact hexDigit_ne_qmark (b / 16) (by omega) h.symm
  · exact hexDigit_ne_qmark (b % 16) (by omega) h.symm

theorem qmark_not_mem_encodeChar (c : Char) : '?' ∉ encodeChar c := by
  unfold encodeChar
  split_ifs with h1 h2
  · intro hm
    simp only [List.mem_cons, List.not_mem_nil, or_false] at hm
    rw [← hm] at h1
    exact absurd h1 (by decide)
  · intro hm
    simp only [List.mem_cons, List.not_mem_nil, or_false] at hm
    exact absurd hm (by decide)
  · intro hm
    simp only [List.mem_flatten, List.mem_map] at hm
    obtain ⟨l, ⟨b, hb, rfl⟩, hq⟩ := hm
    exact qmark_not_mem_percentByte b
      (utf8Bytes_lt c.toNat (char_toNat_lt c) b hb) hq

theorem qmark_not_mem_formUrlEncode (s : String) :
    '?' ∉ (formUrlEncode s).data := by
  intro hm
  have hm2 : '?' ∈ (s.data.map encodeChar).flatten := hm
  simp only [List.mem_flatten, List.mem_map] at hm2
  obtain ⟨l, ⟨c, _, rfl⟩, hq⟩ := hm2
  exact qmark_not_mem_encodeChar c hq

theorem qmark_not_mem_renderPair (p : String × String) :
    '?' ∉ (renderPair p).data := by
  unfold renderPair
  rw [String.data_append, String.data_append]
  intro hm
  rcases List.mem_append.mp hm with hm | hm
  · rcases List.mem_append.mp hm with hm | hm
    · exact qmark_not_mem_formUrlEncode p.1 hm
    · exact absurd hm (by decide)
  · exact qmark_not_mem_formUrlEncode p.2 hm

theorem qmark_not_mem_ampJoin (l : List String)
    (h : ∀ x ∈ l, '?' ∉ x.data) : '?' ∉ (ampJoin l).data := by
  induction l with
  | nil => decide
  | cons x t ih =>
    cases t with
    | nil => exact h x (by simp)
    | cons y ys =>
      have heq : ampJoin (x :: y :: ys) = x ++ "&" ++ ampJoin (y :: ys) := rfl
      rw [heq, String.data_append, String.data_append]
      intro hm
      rcases List.mem_append.mp hm with hm | hm
      · rcases List.mem_append.mp hm with hm | hm
        · exact h x (by simp) hm
        · exact absurd hm (by decide)
      · exact ih (fun z hz => h z (List.mem_cons_of_mem x hz)) hm

theorem qmark_not_mem_buildQueryString (params : List (String × QueryValue)) :
    '?' ∉ (buildQueryString params).data := by
  unfold buildQueryString
  refine qmark_not_mem_ampJoin _ ?_
  intro x hx
  rcases List.mem_map.mp hx with ⟨p, _, rfl⟩
  exact qmark_not_mem_renderPair p

/-- Claim C7: buildQueryString omits every null or undefined entry, repeats
the key once per element for an array value (elements stringified), appends
the key once for a scalar value, percent-encodes keys and values, and its
output never contains a question mark (in particular no leading one); the
spec's two round-trip examples hold. -/
theorem buildQueryString_spec :
    (∀ pre post k v, (v = QueryValue.null ∨ v = QueryValue.undef) →
      buildQueryString (pre ++ (k, v) :: post) = buildQueryString (pre ++ post))
    ∧ (∀ k xs, buildQueryString [(k, QueryValue.arr xs)]
        = ampJoin (xs.map fun x => renderPair (k, x.toJSString)))
    ∧ (∀ k v, buildQueryString [(k, QueryValue.scalar v)]
        = renderPair (k, v.toJSString))
    ∧ (∀ params, '?' ∉ (buildQueryString params).data)
    ∧ buildQueryString [("page", QueryValue.scalar (QScalar.num 1)),
        ("is_active", QueryValue.scalar (QScalar.bool true))]
      = "page=1&is_active=true"
    ∧ buildQueryString [("tags", QueryValue.arr [QScalar.str "a", QScalar.str "b"])]
      = "tags=a&tags=b" := by
  refine ⟨?_, ?_, ?_, qmark_not_mem_buildQueryString, by decide, by decide⟩
  · intro pre post k v hv
    rw [buildQueryString_eq, buildQueryString_eq]
    rcases hv with rfl | rfl <;> simp [specEntryPairs]
  · intro k xs
    rw [buildQueryString_eq]
    simp only [List.map_cons, List.map_nil, List.flatten_cons, List.flatten_nil,
      List.append_nil, specEntryPairs, List.map_map]
    rfl
  · intro k v
    rw [buildQueryString_eq]
    simp [specEntryPairs, ampJoin]

/-- Witness for C7: a null-valued key is omitted entirely; an array value
repeats the key per element. -/
theorem buildQueryString_spec_witness :
    buildQueryString [("a", QueryValue.scalar (QScalar.num 1)), ("b", QueryValue.null)]
      = buildQueryString [("a", QueryValue.scalar (QScalar.num 1))]
    ∧ buildQueryString [("t", QueryValue.arr [QScalar.num 2, QScalar.num 3])]
      = ampJoin [renderPair ("t", "2"), renderPair ("t", "3")] := by
  constructor
  · exact buildQueryString_spec.1 [("a", QueryValue.scalar (QScalar.num 1))] []
      "b" QueryValue.null (Or.inl rfl)
  · exact buildQueryString_spec.2.1 "t" [QScalar.num 2, QScalar.num 3]

end Relay
